import Mathlib

/-!
Shallow embedding of the Cython extension module genrp/_genrp.pyx of the
celerite repository: the Solver wrapper around the C++ BandSolver and the
GP wrapper around GaussianProcess[BandSolver].

Modelling conventions.  Real-valued double data is modelled by ℚ; the C
library functions exp and cos applied to doubles are abstracted as explicit
function parameters (named E and C below) since their floating-point values
are outside the embedding; complex128 values are modelled as pairs of
rationals (real part, imaginary part).  Python exceptions are modelled by
the error type GenrpError, mapping ValueError with a dimension-mismatch
message (including the diagonal dimension mismatch message) to
dimensionMismatch, ValueError about unsorted time arrays (times must be
sorted / the time series must be ordered) to unsortedInput, and
RuntimeError (you must call compute first) to notComputed.  The
NumericalSingularity failure of the external C++ factorization is outside
the modelled Cython layer and is not represented.
-/

/-- Error kinds surfaced by the Cython layer, in the vocabulary of the spec. -/
inductive GenrpError
  | dimensionMismatch
  | unsortedInput
  | notComputed
  deriving DecidableEq, Repr

/-- Validation that a time array is strictly increasing.  This models both
the loop `for i in range(x.shape[0] - 1): if x[i+1] <= x[i]: raise` in
GP.compute and the equivalent `np.all(np.diff(t) > 0.0)` check in
Solver.__cinit__: all consecutive pairs must be strictly ascending. -/
def strictlyIncreasing (x : List ℚ) : Bool :=
  (List.range (x.length - 1)).all fun i => decide (x.getD i 0 < x.getD (i + 1) 0)

/-- State of the Cython Solver object: the fields stored by Solver.__cinit__.
The `computed` flag records that the external BandSolver.compute call at the
end of the constructor has run (modelled from the spec, which says
log_determinant requires compute to have succeeded). -/
structure SolverState where
  N : ℕ
  t : List ℚ
  diagonal : List ℚ
  p_real : ℕ
  alpha_real : List ℚ
  beta_real : List ℚ
  p_complex : ℕ
  alpha_complex : List ℚ
  beta_complex : List (ℚ × ℚ)
  computed : Bool
  deriving DecidableEq, Repr

/-- The diagonal argument d of Solver.__cinit__: either a Python scalar
(the float(d) conversion succeeds) or an array-like vector (float(d) raises
TypeError and the except branch runs). -/
inductive DiagArg
  | scalar (c : ℚ)
  | vector (d : List ℚ)
  deriving DecidableEq, Repr

/-- The state stored by a successful Solver.__cinit__ run: the dimensions
and coefficient arrays are saved verbatim, and the trailing
BandSolver.compute call leaves the solver factorized (computed := true). -/
def mkState (alpha_real beta_real alpha_complex : List ℚ)
    (beta_complex : List (ℚ × ℚ)) (t diag : List ℚ) : SolverState :=
  { N := t.length
    t := t
    diagonal := diag
    p_real := alpha_real.length
    alpha_real := alpha_real
    beta_real := beta_real
    p_complex := alpha_complex.length
    alpha_complex := alpha_complex
    beta_complex := beta_complex
    computed := true }

/-- Solver.__cinit__: first the sortedness check on t, then the two
coefficient length checks, then the diagonal handling (a scalar is
broadcast as d + np.zeros_like(t), a vector must have length N), and
finally the BandSolver construction and compute call. -/
def mkSolver (alpha_real beta_real alpha_complex : List ℚ)
    (beta_complex : List (ℚ × ℚ)) (t : List ℚ) (d : DiagArg) :
    Except GenrpError SolverState :=
  if strictlyIncreasing t = false then .error .unsortedInput
  else if alpha_real.length ≠ beta_real.length then .error .dimensionMismatch
  else if alpha_complex.length ≠ beta_complex.length then .error .dimensionMismatch
  else
    match d with
    | .scalar c =>
        .ok (mkState alpha_real beta_real alpha_complex beta_complex t
          (List.replicate t.length c))
    | .vector dv =>
        if dv.length ≠ t.length then .error .dimensionMismatch
        else .ok (mkState alpha_real beta_real alpha_complex beta_complex t dv)

/-- Off-diagonal entry computation of Solver.get_matrix: with
delta = fabs(t[i] - t[j]), the loop accumulates
alpha_real[p] * exp(-beta_real[p] * delta) over the real terms and then
alpha_complex[p] * (exp(-beta_complex[p].real * delta) *
cos(beta_complex[p].imag * delta)) over the complex terms.  E and C stand
for the C library exp and cos. -/
def kernelOffDiag (E C : ℚ → ℚ) (s : SolverState) (i j : ℕ) : ℚ :=
  (s.alpha_complex.zip s.beta_complex).foldl
    (fun v p => v + p.1 * (E (-(p.2.1 * |s.t.getD i 0 - s.t.getD j 0|))
      * C (p.2.2 * |s.t.getD i 0 - s.t.getD j 0|)))
    ((s.alpha_real.zip s.beta_real).foldl
      (fun v p => v + p.1 * E (-(p.2 * |s.t.getD i 0 - s.t.getD j 0|))) 0)

/-- Solver.get_matrix as an entry function: the diagonal entry (i, i) is
diagonal[i] plus the sum of all alpha_real and alpha_complex entries; each
off-diagonal pair (i, j) and (j, i) with i < j receives the single value
computed by the inner loops at (i, j). -/
def SolverState.get_matrix (E C : ℚ → ℚ) (s : SolverState) (i j : ℕ) : ℚ :=
  if i = j then s.diagonal.getD i 0 + (s.alpha_real.sum + s.alpha_complex.sum)
  else if i < j then kernelOffDiag E C s i j
  else kernelOffDiag E C s j i

/-- Modelled from the spec: BandSolver.log_determinant (C++ source not in
the repository snapshot) requires compute to have succeeded, else it is a
NotComputed failure; its numeric value (sum of log pivots) is not needed by
any claim and is abstracted to Unit. -/
def SolverState.log_determinant (s : SolverState) : Except GenrpError Unit :=
  if s.computed = false then .error .notComputed else .ok ()

/-- Solver.apply_inverse.  The external BandSolver.solve is abstracted as
the function parameter `solve`.  The result is the pair (returned array,
contents of the argument y after the call): with in_place the solver writes
the solution over y and returns y itself; otherwise a fresh array receives
the solution and y is left unchanged. -/
def SolverState.apply_inverse (s : SolverState) (solve : List ℚ → List ℚ)
    (y : List ℚ) (in_place : Bool) : Except GenrpError (List ℚ × List ℚ) :=
  if y.length ≠ s.N then .error .dimensionMismatch
  else if in_place then .ok (solve y, solve y)
  else .ok (solve y, y)

/-- State of the Cython GP object that the claims depend on: the term
counts of the owned kernel and the _data_size field (sentinel -1 meaning
not computed).  The flat parameter values live in the external C++ kernel
and are never read by any claim, so they are not modelled. -/
structure GPState where
  p_real : ℕ
  p_complex : ℕ
  data_size : ℤ
  deriving DecidableEq, Repr

/-- The computed property of GP: `self._data_size >= 0`. -/
def GPState.computed (gp : GPState) : Bool := decide (0 ≤ gp.data_size)

/-- Modelled from the spec: GaussianProcess.size (C++ source not in the
repository snapshot) is the total free-parameter count
2 * p_real + 3 * p_complex. -/
def GPState.size (gp : GPState) : ℕ := 2 * gp.p_real + 3 * gp.p_complex

/-- The params property setter of GP: a wrong-length vector raises the
dimension mismatch ValueError before any mutation; on success the C++
set_params runs and _data_size is reset to -1.  The first component is the
raised error (none on success); the second is the state after the call. -/
def GPState.set_params (gp : GPState) (params : List ℚ) :
    Option GenrpError × GPState :=
  if params.length ≠ gp.size then (some .dimensionMismatch, gp)
  else (none, { gp with data_size := -1 })

/-- GP.add_term: appends a real term when log_freq is None and a complex
term otherwise, rebuilds the C++ process, and resets _data_size to -1.
It never raises.  The numeric parameter values are stored only in the
external kernel and are not modelled. -/
def GPState.add_term (gp : GPState) (log_amp log_q : ℚ) (log_freq : Option ℚ) :
    GPState :=
  match log_freq with
  | none => { gp with p_real := gp.p_real + 1, data_size := -1 }
  | some _ => { gp with p_complex := gp.p_complex + 1, data_size := -1 }

/-- GP.compute: the length check raises first, then the ordering loop; when
both pass, _data_size is set to len(x) and the external compute runs.  The
first component is the raised error (none on success); the second is the
state after the call — on a validation failure the state is returned
unchanged since the raise happens before the _data_size assignment. -/
def GPState.compute (gp : GPState) (x yerr : List ℚ) :
    Option GenrpError × GPState :=
  if x.length ≠ yerr.length then (some .dimensionMismatch, gp)
  else if strictlyIncreasing x = false then (some .unsortedInput, gp)
  else (none, { gp with data_size := (x.length : ℤ) })

/-- GP.log_likelihood: raises the RuntimeError (mapped to notComputed) when
the computed property is False, then the dimension mismatch ValueError when
len(y) differs from _data_size.  The numeric value is delegated to the
external C++ log_likelihood and abstracted to Unit; the call never mutates
the GP state. -/
def GPState.log_likelihood (gp : GPState) (y : List ℚ) :
    Except GenrpError Unit :=
  if gp.computed = false then .error .notComputed
  else if (y.length : ℤ) ≠ gp.data_size then .error .dimensionMismatch
  else .ok ()

/-- The state-relevant operations of the GP class.  The remaining methods
(__len__, the array properties, get_matrix, get_psd, sample, __getitem__)
perform no assignment to _data_size in the source, and __setitem__ is a
params read followed by a params assignment, covered by setParams. -/
inductive GPOp
  | setParams (params : List ℚ)
  | addTerm (log_amp log_q : ℚ) (log_freq : Option ℚ)
  | compute (x yerr : List ℚ)
  | logLikelihood (y : List ℚ)
  deriving DecidableEq, Repr

/-- One GP method call: the raised error (none on success) and the state
after the call. -/
def GPState.runOp (gp : GPState) : GPOp → Option GenrpError × GPState
  | .setParams p => gp.set_params p
  | .addTerm a q f => (none, gp.add_term a q f)
  | .compute x yerr => gp.compute x yerr
  | .logLikelihood y =>
      match gp.log_likelihood y with
      | .error e => (some e, gp)
      | .ok _ => (none, gp)

/-- Decidable equality of Except results, for evaluating the model at
concrete inputs. -/
instance {ε α : Type} [DecidableEq ε] [DecidableEq α] :
    DecidableEq (Except ε α) := fun a b =>
  match a, b with
  | .ok x, .ok y =>
      if h : x = y then .isTrue (by rw [h])
      else .isFalse (by intro hc; cases hc; exact h rfl)
  | .error x, .error y =>
      if h : x = y then .isTrue (by rw [h])
      else .isFalse (by intro hc; cases hc; exact h rfl)
  | .ok _, .error _ => .isFalse (by intro hc; cases hc)
  | .error _, .ok _ => .isFalse (by intro hc; cases hc)

/-- strictlyIncreasing holds exactly when every consecutive pair of entries
is strictly ascending. -/
lemma strictlyIncreasing_iff (x : List ℚ) :
    strictlyIncreasing x = true ↔
      ∀ i, i + 1 < x.length → x.getD i 0 < x.getD (i + 1) 0 := by
  simp only [strictlyIncreasing, List.all_eq_true, List.mem_range,
    decide_eq_true_eq]
  constructor
  · intro h i hi
    exact h i (by omega)
  · intro h i hi
    exact h i (by omega)

/-- strictlyIncreasing fails exactly when some consecutive pair of entries
is out of order. -/
lemma strictlyIncreasing_eq_false_iff (x : List ℚ) :
    strictlyIncreasing x = false ↔
      ∃ i, i + 1 < x.length ∧ x.getD (i + 1) 0 ≤ x.getD i 0 := by
  rw [← Bool.not_eq_true, strictlyIncreasing_iff]
  push_neg
  rfl

/-- Folding addition of a mapped value over a list is the initial value
plus the sum of the mapped list. -/
lemma foldl_add_eq_sum {α : Type} (f : α → ℚ) :
    ∀ (l : List α) (init : ℚ),
      l.foldl (fun v p => v + f p) init = init + (l.map f).sum := by
  intro l
  induction l with
  | nil => intro init; simp
  | cons a l ih =>
      intro init
      simp only [List.foldl_cons, List.map_cons, List.sum_cons, ih]
      ring

/-- The off-diagonal accumulation equals the sum of the real-term
contributions plus the sum of the complex-term contributions. -/
lemma kernelOffDiag_eq (E C : ℚ → ℚ) (s : SolverState) (i j : ℕ) :
    kernelOffDiag E C s i j
      = ((s.alpha_real.zip s.beta_real).map
          (fun p => p.1 * E (-(p.2 * |s.t.getD i 0 - s.t.getD j 0|)))).sum
      + ((s.alpha_complex.zip s.beta_complex).map
          (fun p => p.1 * (E (-(p.2.1 * |s.t.getD i 0 - s.t.getD j 0|))
            * C (p.2.2 * |s.t.getD i 0 - s.t.getD j 0|)))).sum := by
  unfold kernelOffDiag
  rw [foldl_add_eq_sum
      (fun (p : ℚ × ℚ) => p.1 * E (-(p.2 * |s.t.getD i 0 - s.t.getD j 0|))),
    foldl_add_eq_sum
      (fun (p : ℚ × (ℚ × ℚ)) => p.1 * (E (-(p.2.1 * |s.t.getD i 0 - s.t.getD j 0|))
        * C (p.2.2 * |s.t.getD i 0 - s.t.getD j 0|)))]
  ring

/-- The off-diagonal accumulation is symmetric in its two indices, since it
depends on them only through the absolute time difference. -/
lemma kernelOffDiag_comm (E C : ℚ → ℚ) (s : SolverState) (i j : ℕ) :
    kernelOffDiag E C s i j = kernelOffDiag E C s j i := by
  unfold kernelOffDiag
  rw [abs_sub_comm]

/-- A successful Solver construction with a vector diagonal stores exactly
the given arrays. -/
lemma mkSolver_vector_ok (ar br ac : List ℚ) (bc : List (ℚ × ℚ))
    (t dv : List ℚ) (s : SolverState)
    (hs : mkSolver ar br ac bc t (DiagArg.vector dv) = Except.ok s) :
    s = mkState ar br ac bc t dv := by
  by_cases h1 : strictlyIncreasing t = false
  · simp [mkSolver, h1] at hs
  · by_cases h2 : ar.length = br.length
    · by_cases h3 : ac.length = bc.length
      · by_cases h4 : dv.length = t.length
        · simp [mkSolver, h1, h2, h3, h4] at hs
          exact hs.symm
        · simp [mkSolver, h1, h2, h3, h4] at hs
      · simp [mkSolver, h1, h2, h3] at hs
    · simp [mkSolver, h1, h2] at hs

/-- A successful Solver construction with any diagonal argument ends with
the compute call having run. -/
lemma mkSolver_ok_computed (ar br ac : List ℚ) (bc : List (ℚ × ℚ))
    (t : List ℚ) (d : DiagArg) (s : SolverState)
    (hs : mkSolver ar br ac bc t d = Except.ok s) :
    s.computed = true := by
  by_cases h1 : strictlyIncreasing t = false
  · simp [mkSolver, h1] at hs
  · by_cases h2 : ar.length = br.length
    · by_cases h3 : ac.length = bc.length
      · cases d with
        | scalar c =>
            simp [mkSolver, h1, h2, h3] at hs
            rw [← hs]
            rfl
        | vector dv =>
            by_cases h4 : dv.length = t.length
            · simp [mkSolver, h1, h2, h3, h4] at hs
              rw [← hs]
              rfl
            · simp [mkSolver, h1, h2, h3, h4] at hs
      · simp [mkSolver, h1, h2, h3] at hs
    · simp [mkSolver, h1, h2] at hs

/-- C1: for every Solver built from coefficient arrays alpha_real,
beta_real, alpha_complex, beta_complex, time grid t and diagonal vector dv,
get_matrix has diagonal entries dv[i] plus the sum of all alpha_real and
alpha_complex entries, off-diagonal entries equal to the sum of the real
exponential contributions plus the complex decaying-oscillation
contributions at lag |t[i] - t[j]|, and is exactly symmetric. -/
theorem C1_get_matrix (E C : ℚ → ℚ) (ar br ac : List ℚ) (bc : List (ℚ × ℚ))
    (t dv : List ℚ) (s : SolverState)
    (hs : mkSolver ar br ac bc t (DiagArg.vector dv) = Except.ok s)
    (i j : ℕ) (hi : i < s.N) (hj : j < s.N) (hij : i ≠ j) :
    s.get_matrix E C i i = dv.getD i 0 + (ar.sum + ac.sum)
    ∧ s.get_matrix E C i j
      = ((ar.zip br).map
          (fun p => p.1 * E (-(p.2 * |t.getD i 0 - t.getD j 0|)))).sum
      + ((ac.zip bc).map
          (fun p => p.1 * (E (-(p.2.1 * |t.getD i 0 - t.getD j 0|))
            * C (p.2.2 * |t.getD i 0 - t.getD j 0|)))).sum
    ∧ s.get_matrix E C i j = s.get_matrix E C j i := by
  have hstate := mkSolver_vector_ok ar br ac bc t dv s hs
  subst hstate
  refine ⟨?_, ?_, ?_⟩
  · simp [SolverState.get_matrix, mkState]
  · rcases Nat.lt_or_ge i j with hlt | hge
    · rw [SolverState.get_matrix, if_neg hij, if_pos hlt, kernelOffDiag_eq]
      simp [mkState]
    · have hgt : j < i := lt_of_le_of_ne hge (Ne.symm hij)
      rw [SolverState.get_matrix, if_neg hij, if_neg (Nat.lt_asymm hgt),
        kernelOffDiag_comm, kernelOffDiag_eq]
      simp [mkState]
  · rcases Nat.lt_or_ge i j with hlt | hge
    · rw [SolverState.get_matrix, if_neg hij, if_pos hlt,
        SolverState.get_matrix, if_neg (Ne.symm hij),
        if_neg (Nat.lt_asymm hlt)]
    · have hgt : j < i := lt_of_le_of_ne hge (Ne.symm hij)
      rw [SolverState.get_matrix, if_neg hij, if_neg (Nat.lt_asymm hgt),
        SolverState.get_matrix, if_neg (Ne.symm hij), if_pos hgt]

/-- C6: the Solver constructor fails on an unsorted time array before
looking at the coefficient arrays, and fails with a dimension mismatch when
alpha_real and beta_real, or alpha_complex and beta_complex, differ in
length. -/
theorem C6_solver_validation (ar br ac : List ℚ) (bc : List (ℚ × ℚ))
    (t : List ℚ) (d : DiagArg) :
    (strictlyIncreasing t = false →
      mkSolver ar br ac bc t d = Except.error GenrpError.unsortedInput)
    ∧ (strictlyIncreasing t = true → ar.length ≠ br.length →
        mkSolver ar br ac bc t d = Except.error GenrpError.dimensionMismatch)
    ∧ (strictlyIncreasing t = true → ar.length = br.length →
        ac.length ≠ bc.length →
        mkSolver ar br ac bc t d = Except.error GenrpError.dimensionMismatch) := by
  refine ⟨?_, ?_, ?_⟩
  · intro h
    simp [mkSolver, h]
  · intro h h2
    simp [mkSolver, h, h2]
  · intro h h2 h3
    simp [mkSolver, h, h2, h3]

/-- C7: a scalar diagonal argument is broadcast to a vector of length N
with every entry equal to the scalar, and a vector diagonal argument whose
length differs from N is a dimension mismatch failure. -/
theorem C7_diagonal_handling (ar br ac : List ℚ) (bc : List (ℚ × ℚ))
    (t : List ℚ) (c : ℚ) (dv : List ℚ)
    (hs : strictlyIncreasing t = true) (h1 : ar.length = br.length)
    (h2 : ac.length = bc.length) :
    (∃ s, mkSolver ar br ac bc t (DiagArg.scalar c) = Except.ok s
      ∧ s.diagonal = List.replicate t.length c)
    ∧ (dv.length ≠ t.length →
        mkSolver ar br ac bc t (DiagArg.vector dv)
          = Except.error GenrpError.dimensionMismatch) := by
  constructor
  · refine ⟨mkState ar br ac bc t (List.replicate t.length c), ?_, rfl⟩
    simp [mkSolver, hs, h1, h2]
  · intro h4
    simp [mkSolver, hs, h1, h2, h4]

/-- C8: every successfully constructed Solver is already computed, so
log_determinant succeeds and apply_inverse can never fail with a
NotComputed error. -/
theorem C8_solver_always_computed (ar br ac : List ℚ) (bc : List (ℚ × ℚ))
    (t : List ℚ) (d : DiagArg) (s : SolverState)
    (hs : mkSolver ar br ac bc t d = Except.ok s) :
    s.computed = true
    ∧ s.log_determinant = Except.ok ()
    ∧ ∀ (solve : List ℚ → List ℚ) (y : List ℚ) (ip : Bool),
        s.apply_inverse solve y ip ≠ Except.error GenrpError.notComputed := by
  have hc := mkSolver_ok_computed ar br ac bc t d s hs
  refine ⟨hc, ?_, ?_⟩
  · simp [SolverState.log_determinant, hc]
  · intro solve y ip
    unfold SolverState.apply_inverse
    split
    · simp
    · split <;> simp

/-- C9: apply_inverse without in_place returns the solution in a fresh
array and leaves the contents of y unchanged; with in_place it overwrites y
with the solution and returns it. -/
theorem C9_apply_inverse_frame (solve : List ℚ → List ℚ) (s : SolverState)
    (y : List ℚ) (hy : y.length = s.N) :
    s.apply_inverse solve y false = Except.ok (solve y, y)
    ∧ s.apply_inverse solve y true = Except.ok (solve y, solve y) := by
  constructor <;> simp [SolverState.apply_inverse, hy]

/-- C2: a successful params assignment and every add_term call reset the
computed property to False, and from a not-computed state no operation
other than a successful compute makes the computed property True. -/
theorem C2_invalidation (gp gp1 : GPState) (p : List ℚ) (la lq : ℚ)
    (lf : Option ℚ) (op : GPOp)
    (hset : (gp.set_params p).1 = none)
    (hnc : gp1.computed = false) :
    (gp.set_params p).2.computed = false
    ∧ (gp.add_term la lq lf).computed = false
    ∧ ((gp1.runOp op).2.computed = true →
        ∃ x yerr, op = GPOp.compute x yerr ∧ (gp1.runOp op).1 = none) := by
  refine ⟨?_, ?_, ?_⟩
  · by_cases h : p.length ≠ gp.size
    · simp [GPState.set_params, h] at hset
    · simp [GPState.set_params, h, GPState.computed]
  · cases lf <;> simp [GPState.add_term, GPState.computed]
  · intro hcomp
    cases op with
    | setParams q =>
        by_cases h : q.length ≠ gp1.size
        · simp [GPState.runOp, GPState.set_params, h, hnc] at hcomp
        · simp [GPState.runOp, GPState.set_params, h, GPState.computed] at hcomp
    | addTerm a q f =>
        cases f <;>
          simp [GPState.runOp, GPState.add_term, GPState.computed] at hcomp
    | compute x yerr =>
        by_cases h1 : x.length ≠ yerr.length
        · simp [GPState.runOp, GPState.compute, h1, hnc] at hcomp
        · by_cases h2 : strictlyIncreasing x = false
          · simp [GPState.runOp, GPState.compute, h1, h2, hnc] at hcomp
          · exact ⟨x, yerr, rfl, by simp [GPState.runOp, GPState.compute, h1, h2]⟩
    | logLikelihood y =>
        cases hres : gp1.log_likelihood y <;>
          simp [GPState.runOp, hres, hnc] at hcomp

/-- C3: log_likelihood fails with NotComputed whenever the process is not
computed, regardless of y, and with DimensionMismatch when the process is
computed but the length of y differs from the recorded dataset size. -/
theorem C3_log_likelihood_errors (gp : GPState) (y : List ℚ) :
    (gp.computed = false →
      gp.log_likelihood y = Except.error GenrpError.notComputed)
    ∧ (gp.computed = true → (y.length : ℤ) ≠ gp.data_size →
        gp.log_likelihood y = Except.error GenrpError.dimensionMismatch) := by
  constructor
  · intro h
    simp [GPState.log_likelihood, h]
  · intro h hne
    simp [GPState.log_likelihood, h, hne]

/-- C4: GP.compute fails with DimensionMismatch on a length mismatch,
fails with UnsortedInput when some consecutive pair of times is out of
order, and on success records the dataset size and marks the process
computed. -/
theorem C4_compute_validation (gp : GPState) (x yerr : List ℚ) :
    (x.length ≠ yerr.length →
      gp.compute x yerr = (some GenrpError.dimensionMismatch, gp))
    ∧ (x.length = yerr.length →
        (∃ i, i + 1 < x.length ∧ x.getD (i + 1) 0 ≤ x.getD i 0) →
        gp.compute x yerr = (some GenrpError.unsortedInput, gp))
    ∧ (x.length = yerr.length →
        (∀ i, i + 1 < x.length → x.getD i 0 < x.getD (i + 1) 0) →
        (gp.compute x yerr).1 = none
        ∧ (gp.compute x yerr).2.data_size = (x.length : ℤ)
        ∧ (gp.compute x yerr).2.computed = true) := by
  refine ⟨?_, ?_, ?_⟩
  · intro h
    simp [GPState.compute, h]
  · intro hl hex
    have hsi : strictlyIncreasing x = false :=
      (strictlyIncreasing_eq_false_iff x).mpr hex
    simp [GPState.compute, hl, hsi]
  · intro hl hall
    have hsi : strictlyIncreasing x = true := (strictlyIncreasing_iff x).mpr hall
    simp [GPState.compute, hl, hsi, GPState.computed]

/-- C5 counterexample: a computed GP (recorded dataset size 2) on which
compute fails its validation (unsorted times) keeps its computed property
True, so a failing compute does not leave the process treated as
not-computed. -/
theorem C5_counterexample :
    ¬ (((GPState.mk 1 0 2).compute [1, 0] [1, 1]).1.isSome = true →
        ((GPState.mk 1 0 2).compute [1, 0] [1, 1]).2.computed = false) := by
  decide

/-- C5 amended: every failing GP operation leaves the state exactly as it
was, including a compute call that fails validation, which does not mark
the process as not-computed. -/
theorem C5_amended_failing_ops_preserve_state (gp : GPState) (op : GPOp)
    (hfail : (gp.runOp op).1.isSome = true) :
    (gp.runOp op).2 = gp := by
  cases op with
  | setParams p =>
      by_cases h : p.length ≠ gp.size
      · simp [GPState.runOp, GPState.set_params, h]
      · simp [GPState.runOp, GPState.set_params, h] at hfail
  | addTerm a q f => simp [GPState.runOp] at hfail
  | compute x yerr =>
      by_cases h1 : x.length ≠ yerr.length
      · simp [GPState.runOp, GPState.compute, h1]
      · by_cases h2 : strictlyIncreasing x = false
        · simp [GPState.runOp, GPState.compute, h1, h2]
        · simp [GPState.runOp, GPState.compute, h1, h2] at hfail
  | logLikelihood y =>
      cases hres : gp.log_likelihood y <;> simp [GPState.runOp, hres]

/-- C10: GP.compute with a time array of length at most one passes the
ordering validation, and with empty arrays records dataset size 0 and makes
the computed property True. -/
theorem C10_short_inputs (gp : GPState) (x yerr : List ℚ)
    (hlen : x.length ≤ 1) (hy : yerr.length = x.length) :
    (gp.compute x yerr).1 = none
    ∧ (gp.compute [] []).2.data_size = 0
    ∧ (gp.compute [] []).2.computed = true := by
  have hsi : strictlyIncreasing x = true := by
    apply (strictlyIncreasing_iff x).mpr
    intro i hi
    exact absurd hi (by omega)
  refine ⟨?_, ?_, ?_⟩
  · simp [GPState.compute, hy, hsi]
  · simp [GPState.compute, strictlyIncreasing]
  · simp [GPState.compute, strictlyIncreasing, GPState.computed]

/-- Witness for C1 at a concrete solver: one real term (1, 2), one complex
term (3, 4 + 5i), times [0, 1], diagonal [6, 7], entry (0, 1). -/
theorem C1_witness :
    mkSolver [1] [2] [3] [(4, 5)] [0, 1] (DiagArg.vector [6, 7])
      = Except.ok (mkState [1] [2] [3] [(4, 5)] [0, 1] [6, 7])
    ∧ (mkState [1] [2] [3] [(4, 5)] [0, 1] [6, 7]).get_matrix
        (fun q => q) (fun q => q) 0 1
      = (mkState [1] [2] [3] [(4, 5)] [0, 1] [6, 7]).get_matrix
        (fun q => q) (fun q => q) 1 0 :=
  ⟨by decide,
    (C1_get_matrix (fun q => q) (fun q => q) [1] [2] [3] [(4, 5)] [0, 1] [6, 7]
      (mkState [1] [2] [3] [(4, 5)] [0, 1] [6, 7]) (by decide) 0 1 (by decide)
      (by decide) (by decide)).2.2⟩

/-- Witness for C2 at a concrete GP: one real term, recorded dataset size 3,
params assignment of the right length 2, and an add_term call. -/
theorem C2_witness :
    ((GPState.mk 1 0 3).set_params [0, 0]).2.computed = false
    ∧ ((GPState.mk 1 0 3).add_term 0 0 none).computed = false :=
  ⟨(C2_invalidation (GPState.mk 1 0 3) (GPState.mk 1 0 (-1)) [0, 0] 0 0 none
      (GPOp.logLikelihood []) (by decide) (by decide)).1,
    (C2_invalidation (GPState.mk 1 0 3) (GPState.mk 1 0 (-1)) [0, 0] 0 0 none
      (GPOp.logLikelihood []) (by decide) (by decide)).2.1⟩

/-- Witness for C3: a not-computed GP raises NotComputed, and a computed GP
with dataset size 2 raises DimensionMismatch on an empty y. -/
theorem C3_witness :
    (GPState.mk 0 0 (-1)).log_likelihood []
      = Except.error GenrpError.notComputed
    ∧ (GPState.mk 0 0 2).log_likelihood []
      = Except.error GenrpError.dimensionMismatch :=
  ⟨(C3_log_likelihood_errors (GPState.mk 0 0 (-1)) []).1 (by decide),
    (C3_log_likelihood_errors (GPState.mk 0 0 2) []).2 (by decide) (by decide)⟩

/-- Witness for C4: a length mismatch, an unsorted pair, and a successful
compute on two sorted times. -/
theorem C4_witness :
    (GPState.mk 0 0 (-1)).compute [0] []
      = (some GenrpError.dimensionMismatch, GPState.mk 0 0 (-1))
    ∧ (GPState.mk 0 0 (-1)).compute [1, 0] [1, 1]
      = (some GenrpError.unsortedInput, GPState.mk 0 0 (-1))
    ∧ ((GPState.mk 0 0 (-1)).compute [0, 1] [1, 1]).1 = none :=
  ⟨(C4_compute_validation (GPState.mk 0 0 (-1)) [0] []).1 (by decide),
    (C4_compute_validation (GPState.mk 0 0 (-1)) [1, 0] [1, 1]).2.1 (by decide)
      ⟨0, by decide, by decide⟩,
    ((C4_compute_validation (GPState.mk 0 0 (-1)) [0, 1] [1, 1]).2.2 (by decide)
      (by
        intro i hi
        simp at hi
        have h0 : i = 0 := by omega
        subst h0
        decide)).1⟩

/-- Witness for C5 as amended: a compute call failing its ordering
validation on a computed GP returns the state unchanged. -/
theorem C5_amended_witness :
    ((GPState.mk 1 0 2).runOp (GPOp.compute [1, 0] [1, 1])).2
      = GPState.mk 1 0 2 :=
  C5_amended_failing_ops_preserve_state (GPState.mk 1 0 2)
    (GPOp.compute [1, 0] [1, 1]) (by decide)

/-- Witness for C6: an unsorted time array wins over a coefficient length
mismatch, and a sorted time array with mismatched real coefficients is a
dimension mismatch. -/
theorem C6_witness :
    mkSolver [1] [] [] [] [1, 0] (DiagArg.scalar 0)
      = Except.error GenrpError.unsortedInput
    ∧ mkSolver [1] [] [] [] [0, 1] (DiagArg.scalar 0)
      = Except.error GenrpError.dimensionMismatch :=
  ⟨(C6_solver_validation [1] [] [] [] [1, 0] (DiagArg.scalar 0)).1 (by decide),
    (C6_solver_validation [1] [] [] [] [0, 1] (DiagArg.scalar 0)).2.1
      (by decide) (by decide)⟩

/-- Witness for C7: scalar diagonal 5 broadcast over two times, and a
length-1 vector diagonal rejected for two times. -/
theorem C7_witness :
    (∃ s, mkSolver [] [] [] [] [0, 1] (DiagArg.scalar 5) = Except.ok s
      ∧ s.diagonal = List.replicate 2 5)
    ∧ mkSolver [] [] [] [] [0, 1] (DiagArg.vector [1])
      = Except.error GenrpError.dimensionMismatch :=
  ⟨(C7_diagonal_handling [] [] [] [] [0, 1] 5 [1] (by decide) (by decide)
      (by decide)).1,
    (C7_diagonal_handling [] [] [] [] [0, 1] 5 [1] (by decide) (by decide)
      (by decide)).2 (by decide)⟩

/-- Witness for C8: a solver built over one time point is computed and its
log_determinant succeeds. -/
theorem C8_witness :
    (mkState [] [] [] [] [0] [7]).computed = true
    ∧ (mkState [] [] [] [] [0] [7]).log_determinant = Except.ok () :=
  ⟨(C8_solver_always_computed [] [] [] [] [0] (DiagArg.vector [7])
      (mkState [] [] [] [] [0] [7]) (by decide)).1,
    (C8_solver_always_computed [] [] [] [] [0] (DiagArg.vector [7])
      (mkState [] [] [] [] [0] [7]) (by decide)).2.1⟩

/-- Witness for C9: applying the inverse with list reversal as the abstract
solve on a length-1 vector, in place and not in place. -/
theorem C9_witness :
    (mkState [] [] [] [] [0] [7]).apply_inverse List.reverse [3] false
      = Except.ok ([3].reverse, [3])
    ∧ (mkState [] [] [] [] [0] [7]).apply_inverse List.reverse [3] true
      = Except.ok ([3].reverse, [3].reverse) :=
  C9_apply_inverse_frame List.reverse (mkState [] [] [] [] [0] [7]) [3]
    (by decide)

/-- Witness for C10: compute on a single time passes validation, and
compute on empty arrays records size 0 and is computed. -/
theorem C10_witness :
    ((GPState.mk 0 0 (-1)).compute [5] [1]).1 = none
    ∧ ((GPState.mk 0 0 (-1)).compute [] []).2.data_size = 0
    ∧ ((GPState.mk 0 0 (-1)).compute [] []).2.computed = true :=
  C10_short_inputs (GPState.mk 0 0 (-1)) [5] [1] (by decide) (by decide)
